import Mathlib

/-!
Shallow embedding of the MAX31865 RTD-to-digital converter driver
(`src/lib.rs`) and verification of its specification.

Machine integers are modelled as `Nat` with explicit `% 2 ^ w` where the
Rust code's fixed-width arithmetic can wrap (the `u32` multiplication in
`read_default_conversion`).  The SPI bus and the two GPIO pins are external
collaborators (embedded-hal traits in the source); they are modelled as
explicit state-transition oracles passed to each operation, and every
operation additionally returns the trace of bus/pin actions it performed,
so that chip-select framing can be stated.
-/

namespace Max31865Driver

/-- The register map of the chip (`enum Register` in the source), with the
discriminant values from the source. -/
inductive Register
  | CONFIG
  | RTD_MSB
  | RTD_LSB
  | HIGH_FAULT_THRESHOLD_MSB
  | HIGH_FAULT_THRESHOLD_LSB
  | LOW_FAULT_THRESHOLD_MSB
  | LOW_FAULT_THRESHOLD_LSB
  | FAULT_STATUS
deriving DecidableEq

/-- Discriminant of the `Register` enum (`*self as u8`). -/
def Register.toU8 : Register → Nat
  | .CONFIG => 0x00
  | .RTD_MSB => 0x01
  | .RTD_LSB => 0x02
  | .HIGH_FAULT_THRESHOLD_MSB => 0x03
  | .HIGH_FAULT_THRESHOLD_LSB => 0x04
  | .LOW_FAULT_THRESHOLD_MSB => 0x05
  | .LOW_FAULT_THRESHOLD_LSB => 0x06
  | .FAULT_STATUS => 0x07

/-- `const R: u8 = 0 << 7;` -/
def R : Nat := 0 <<< 7

/-- `const W: u8 = 1 << 7;` -/
def W : Nat := 1 <<< 7

/-- `Register::read_address`: `*self as u8 | R`. -/
def Register.read_address (r : Register) : Nat := r.toU8 ||| R

/-- `Register::write_address`: `*self as u8 | W`. -/
def Register.write_address (r : Register) : Nat := r.toU8 ||| W

/-- `enum SensorType` with its discriminants. -/
inductive SensorType
  | TwoOrFourWire
  | ThreeWire
deriving DecidableEq

/-- `SensorType` discriminant (`sensor_type as u8`). -/
def SensorType.toU8 : SensorType → Nat
  | .TwoOrFourWire => 0
  | .ThreeWire => 1

/-- `enum FilterMode` with its discriminants. -/
inductive FilterMode
  | Filter60Hz
  | Filter50Hz
deriving DecidableEq

/-- `FilterMode` discriminant (`filter_mode as u8`). -/
def FilterMode.toU8 : FilterMode → Nat
  | .Filter60Hz => 0
  | .Filter50Hz => 1

/-- Model of an embedded-hal `OutputPin` collaborator (the chip-select
pin): each drive may fail with a pin error `Ep` and transitions the pin
state `P`.  In the source both calls appear as
`self.ncs.set_low().ok()` / `self.ncs.set_high().ok()`: the result is
discarded, but the driver still performs the drive. -/
structure OutputPin (P Ep : Type) where
  set_high : P → Except Ep Unit × P
  set_low : P → Except Ep Unit × P

/-- Model of an embedded-hal `InputPin` collaborator (the ready pin):
`is_low` reads the level, `Except.ok true` meaning the line is low, and
may fail with a pin error. -/
structure InputPin (P Ep : Type) where
  is_low : P → Except Ep Bool

/-- Model of the SPI bus collaborator: `write` transmits bytes, `transfer`
performs an in-place bidirectional exchange returning the received bytes.
Both may fail with a transport error `E` and transition the bus state `S`. -/
structure SpiModel (S E : Type) where
  write : S → List Nat → Except E Unit × S
  transfer : S → List Nat → Except E (List Nat) × S

/-- External bus/pin actions a driver operation performs, in order.
`setLow`/`setHigh` are chip-select drives, `spiWrite`/`spiTransfer` are
bus primitives carrying the transmitted bytes. -/
inductive BusEvent
  | setLow
  | setHigh
  | spiWrite (data : List Nat)
  | spiTransfer (sent : List Nat)
deriving DecidableEq

/-- `struct Max31865<NCS, RDY>`: the chip-select pin handle, the ready pin
handle, and the calibration reference resistance (u32, ohms x 100). -/
structure Max31865 (NCS RDY : Type) where
  ncs : NCS
  rdy : RDY
  calibration : Nat
deriving DecidableEq

/-- `Max31865::new`: drives chip-select high, discarding the pin result
(`ncs.set_high().ok();`), and returns `Ok` of the instance with the
default calibration 40000 (400.00 ohms).  The error type `E` of the Rust
signature is free; the function never returns `Err`. -/
def Max31865.new {NCS RDY Ep E : Type} (ncsM : OutputPin NCS Ep)
    (ncs : NCS) (rdy : RDY) :
    Except E (Max31865 NCS RDY) × List BusEvent :=
  let default_calib := 40000
  (Except.ok { ncs := (ncsM.set_high ncs).2, rdy := rdy,
               calibration := default_calib },
   [BusEvent.setHigh])

/-- `Max31865::write`: drive chip-select low (result discarded), transmit
`[reg.write_address(), val]` with the SPI write primitive, and on success
drive chip-select high (result discarded).  On a transport error the `?`
operator returns early, so the final `set_high` is not performed. -/
def Max31865.write {NCS RDY Ep S E : Type} (m : Max31865 NCS RDY)
    (ncsM : OutputPin NCS Ep) (spiM : SpiModel S E) (s : S)
    (reg : Register) (val : Nat) :
    Except E Unit × Max31865 NCS RDY × S × List BusEvent :=
  let ncs1 := (ncsM.set_low m.ncs).2
  let t := spiM.write s [reg.write_address, val]
  match t.1 with
  | Except.error e =>
      (Except.error e, { m with ncs := ncs1 }, t.2,
       [BusEvent.setLow, BusEvent.spiWrite [reg.write_address, val]])
  | Except.ok _ =>
      (Except.ok (), { m with ncs := (ncsM.set_high ncs1).2 }, t.2,
       [BusEvent.setLow, BusEvent.spiWrite [reg.write_address, val],
        BusEvent.setHigh])

/-- `Max31865::read_many` at buffer size `n` (the source is generic over
the buffer type `B: Unsize<[u8]>`; the driver only uses `[u8; 2]`): zero
an `n`-byte buffer, put the read address in byte 0, drive chip-select low
(result discarded), do one in-place `spi.transfer` over the buffer, and on
success drive chip-select high (result discarded) and return the received
buffer.  On a transport error the `?` returns early, skipping `set_high`. -/
def Max31865.read_many {NCS RDY Ep S E : Type} (m : Max31865 NCS RDY)
    (ncsM : OutputPin NCS Ep) (spiM : SpiModel S E) (s : S)
    (reg : Register) (n : Nat) :
    Except E (List Nat) × Max31865 NCS RDY × S × List BusEvent :=
  let buffer := (List.replicate n 0).set 0 reg.read_address
  let ncs1 := (ncsM.set_low m.ncs).2
  let t := spiM.transfer s buffer
  match t.1 with
  | Except.error e =>
      (Except.error e, { m with ncs := ncs1 }, t.2,
       [BusEvent.setLow, BusEvent.spiTransfer buffer])
  | Except.ok out =>
      (Except.ok out, { m with ncs := (ncsM.set_high ncs1).2 }, t.2,
       [BusEvent.setLow, BusEvent.spiTransfer buffer, BusEvent.setHigh])

/-- `Max31865::read`: a 2-byte `read_many`; byte 1 of the returned buffer
is the register value (byte 0 was clocked out while the address byte was
transmitted). -/
def Max31865.read {NCS RDY Ep S E : Type} (m : Max31865 NCS RDY)
    (ncsM : OutputPin NCS Ep) (spiM : SpiModel S E) (s : S)
    (reg : Register) :
    Except E Nat × Max31865 NCS RDY × S × List BusEvent :=
  match Max31865.read_many m ncsM spiM s reg 2 with
  | (Except.error e, m1, s1, tr) => (Except.error e, m1, s1, tr)
  | (Except.ok buffer, m1, s1, tr) => (Except.ok (buffer.getD 1 0), m1, s1, tr)

/-- `Max31865::read_raw`: read `RTD_MSB` then `RTD_LSB` as two independent
single-register reads and compose `(msb << 8) | lsb`; either transport
error propagates via `?`. -/
def Max31865.read_raw {NCS RDY Ep S E : Type} (m : Max31865 NCS RDY)
    (ncsM : OutputPin NCS Ep) (spiM : SpiModel S E) (s : S) :
    Except E Nat × Max31865 NCS RDY × S × List BusEvent :=
  match Max31865.read m ncsM spiM s Register.RTD_MSB with
  | (Except.error e, m1, s1, tr1) => (Except.error e, m1, s1, tr1)
  | (Except.ok msb, m1, s1, tr1) =>
      match Max31865.read m1 ncsM spiM s1 Register.RTD_LSB with
      | (Except.error e, m2, s2, tr2) => (Except.error e, m2, s2, tr1 ++ tr2)
      | (Except.ok lsb, m2, s2, tr2) =>
          (Except.ok ((msb <<< 8) ||| lsb), m2, s2, tr1 ++ tr2)

/-- The ohms computation of `read_default_conversion`:
`((raw >> 1) as u32 * self.calibration) >> 15` with u32 (wrapping)
multiplication, hence the explicit `% 2 ^ 32`. -/
def ohms_of_raw (raw calibration : Nat) : Nat :=
  (((raw >>> 1) * calibration) % 2 ^ 32) >>> 15

/-- `Max31865::read_default_conversion`: read the raw sample, scale it by
the stored calibration (`ohms_of_raw`), and return
`temp_conversion::lookup_temperature(ohms as u16)`.  The lookup table
lives in the `temp_conversion` module, an external collaborator of the
core; it is taken here as a parameter `lookup_temperature`
(`ohms as u16` is the `% 2 ^ 16` truncation). -/
def Max31865.read_default_conversion {NCS RDY Ep S E : Type}
    (lookup_temperature : Nat → Nat) (m : Max31865 NCS RDY)
    (ncsM : OutputPin NCS Ep) (spiM : SpiModel S E) (s : S) :
    Except E Nat × Max31865 NCS RDY × S × List BusEvent :=
  match Max31865.read_raw m ncsM spiM s with
  | (Except.error e, m1, s1, tr) => (Except.error e, m1, s1, tr)
  | (Except.ok raw, m1, s1, tr) =>
      (Except.ok (lookup_temperature (ohms_of_raw raw m1.calibration % 2 ^ 16)),
       m1, s1, tr)

/-- `Max31865::set_calibration`: overwrite the stored calibration and
return `Ok(())`; the Rust error type `E` is free, so it never fails. -/
def Max31865.set_calibration {NCS RDY E : Type} (m : Max31865 NCS RDY)
    (calib : Nat) : Except E Unit × Max31865 NCS RDY :=
  (Except.ok (), { m with calibration := calib })

/-- `Max31865::is_ready`: `self.rdy.is_low().unwrap_or(false)` — true when
the ready pin reads low, false when it reads high or when the read fails. -/
def Max31865.is_ready {NCS RDY Ep : Type} (m : Max31865 NCS RDY)
    (rdyM : InputPin RDY Ep) : Bool :=
  match rdyM.is_low m.rdy with
  | Except.ok b => b
  | Except.error _ => false

/-- The configuration byte assembled by `Max31865::configure`:
`((vbias as u8) << 7) | ((conversion_mode as u8) << 6)
 | ((one_shot as u8) << 5) | ((sensor_type as u8) << 4)
 | (filter_mode as u8)`. -/
def configByte (vbias conversion_mode one_shot : Bool)
    (sensor_type : SensorType) (filter_mode : FilterMode) : Nat :=
  (vbias.toNat <<< 7) ||| (conversion_mode.toNat <<< 6) |||
  (one_shot.toNat <<< 5) ||| (sensor_type.toU8 <<< 4) ||| filter_mode.toU8

/-- `Max31865::configure`: assemble the configuration byte and issue one
`write(CONFIG, conf)`; the transport error, if any, propagates. -/
def Max31865.configure {NCS RDY Ep S E : Type} (m : Max31865 NCS RDY)
    (ncsM : OutputPin NCS Ep) (spiM : SpiModel S E) (s : S)
    (vbias conversion_mode one_shot : Bool) (sensor_type : SensorType)
    (filter_mode : FilterMode) :
    Except E Unit × Max31865 NCS RDY × S × List BusEvent :=
  Max31865.write m ncsM spiM s Register.CONFIG
    (configByte vbias conversion_mode one_shot sensor_type filter_mode)

/-! Concrete collaborator instances used to exercise the model on closed
inputs: a well-behaved chip-select pin, a chip-select pin whose high drive
fails, a ready pin whose read fails, an SPI bus that answers the two RTD
register reads with fixed bytes, and an SPI bus whose primitives fail. -/

/-- A chip-select pin whose drives always succeed. -/
def pinOk : OutputPin Unit Unit :=
  { set_high := fun p => (Except.ok (), p),
    set_low := fun p => (Except.ok (), p) }

/-- A chip-select pin whose high drive fails (low drive succeeds). -/
def pinFailHigh : OutputPin Unit Unit :=
  { set_high := fun p => (Except.error (), p),
    set_low := fun p => (Except.ok (), p) }

/-- A ready pin whose level read always fails. -/
def rdyFail : InputPin Unit Unit :=
  { is_low := fun _ => Except.error () }

/-- An SPI bus that echoes the address byte and answers the RTD_MSB read
(address byte 0x01) with `msb` and the RTD_LSB read (address byte 0x02)
with `lsb`; writes succeed. -/
def spiRTD (msb lsb : Nat) : SpiModel Unit Unit :=
  { write := fun s _ => (Except.ok (), s),
    transfer := fun s d =>
      (if d = [1, 0] then Except.ok [1, msb]
       else if d = [2, 0] then Except.ok [2, lsb]
       else Except.ok d, s) }

/-- An SPI bus whose write and transfer primitives always fail. -/
def spiFail : SpiModel Unit Unit :=
  { write := fun s _ => (Except.error (), s),
    transfer := fun s _ => (Except.error (), s) }

/-- A driver instance over trivial pin states with the default
calibration 40000. -/
def m0 : Max31865 Unit Unit := { ncs := (), rdy := (), calibration := 40000 }

/-! Helper lemmas shared by the claim theorems. -/

/-- `read_many` only touches the chip-select handle of the driver state;
the calibration is preserved. -/
theorem read_many_calibration {NCS RDY Ep S E : Type} (m : Max31865 NCS RDY)
    (ncsM : OutputPin NCS Ep) (spiM : SpiModel S E) (s : S)
    (reg : Register) (n : Nat) :
    ((Max31865.read_many m ncsM spiM s reg n).2.1).calibration = m.calibration := by
  simp only [Max31865.read_many]
  split <;> rfl

/-- `read` preserves the stored calibration. -/
theorem read_calibration {NCS RDY Ep S E : Type} (m : Max31865 NCS RDY)
    (ncsM : OutputPin NCS Ep) (spiM : SpiModel S E) (s : S) (reg : Register) :
    ((Max31865.read m ncsM spiM s reg).2.1).calibration = m.calibration := by
  have h := read_many_calibration m ncsM spiM s reg 2
  simp only [Max31865.read]
  split <;> rename_i heq <;> rw [heq] at h <;> exact h

/-- `read_raw` preserves the stored calibration. -/
theorem read_raw_calibration {NCS RDY Ep S E : Type} (m : Max31865 NCS RDY)
    (ncsM : OutputPin NCS Ep) (spiM : SpiModel S E) (s : S) :
    ((Max31865.read_raw m ncsM spiM s).2.1).calibration = m.calibration := by
  have h1 := read_calibration m ncsM spiM s Register.RTD_MSB
  simp only [Max31865.read_raw]
  split <;> rename_i heq1
  · rw [heq1] at h1; exact h1
  · rw [heq1] at h1
    rename_i msb m1 s1 tr1
    have h2 := read_calibration m1 ncsM spiM s1 Register.RTD_LSB
    split <;> rename_i heq2 <;> rw [heq2] at h2 <;> exact h2.trans h1

/-- `write` fully case-analysed over the outcome of the SPI write
primitive: on success the trace is assert, transfer, deassert and the
result is `ok`; on failure the trace stops after the transfer and the
transport error propagates. -/
theorem write_cases {NCS RDY Ep S E : Type} (m : Max31865 NCS RDY)
    (ncsM : OutputPin NCS Ep) (spiM : SpiModel S E) (s : S)
    (reg : Register) (val : Nat) :
    (∀ (u : Unit) (s' : S), spiM.write s [reg.write_address, val] = (Except.ok u, s') →
       Max31865.write m ncsM spiM s reg val =
         (Except.ok (), { m with ncs := (ncsM.set_high (ncsM.set_low m.ncs).2).2 }, s',
          [BusEvent.setLow, BusEvent.spiWrite [reg.write_address, val],
           BusEvent.setHigh])) ∧
    (∀ (e : E) (s' : S), spiM.write s [reg.write_address, val] = (Except.error e, s') →
       Max31865.write m ncsM spiM s reg val =
         (Except.error e, { m with ncs := (ncsM.set_low m.ncs).2 }, s',
          [BusEvent.setLow, BusEvent.spiWrite [reg.write_address, val]])) := by
  constructor <;> intro x s' h <;> simp [Max31865.write, h]

/-- When `read_raw` succeeds, `read_default_conversion` returns the
lookup of the scaled ohms value computed from the calibration stored at
entry. -/
theorem rdc_of_read_raw_ok {NCS RDY Ep S E : Type}
    (lookup_temperature : Nat → Nat) (m : Max31865 NCS RDY)
    (ncsM : OutputPin NCS Ep) (spiM : SpiModel S E) (s : S)
    (raw : Nat) (m' : Max31865 NCS RDY) (s' : S) (tr : List BusEvent)
    (h : Max31865.read_raw m ncsM spiM s = (Except.ok raw, m', s', tr)) :
    Max31865.read_default_conversion lookup_temperature m ncsM spiM s =
      (Except.ok (lookup_temperature (ohms_of_raw raw m.calibration % 2 ^ 16)),
       m', s', tr) := by
  have hc := read_raw_calibration m ncsM spiM s
  rw [h] at hc
  have hc2 : m'.calibration = m.calibration := hc
  simp only [Max31865.read_default_conversion, h, hc2]

/-- When `read_raw` fails, `read_default_conversion` fails with the same
transport error and the same final state. -/
theorem rdc_of_read_raw_error {NCS RDY Ep S E : Type}
    (lookup_temperature : Nat → Nat) (m : Max31865 NCS RDY)
    (ncsM : OutputPin NCS Ep) (spiM : SpiModel S E) (s : S)
    (e : E) (m' : Max31865 NCS RDY) (s' : S) (tr : List BusEvent)
    (h : Max31865.read_raw m ncsM spiM s = (Except.error e, m', s', tr)) :
    Max31865.read_default_conversion lookup_temperature m ncsM spiM s =
      (Except.error e, m', s', tr) := by
  simp only [Max31865.read_default_conversion, h]

/-- Claim C4: for every register, `read_address r &&& 0x80 = 0`,
`write_address r &&& 0x80 = 0x80`, `read_address r ||| 0x80 =
write_address r`, and the two encodings are distinct.  Both functions are
plain total Lean functions (no failure mode). -/
theorem register_address_spec :
    ∀ r : Register,
      r.read_address &&& 0x80 = 0 ∧
      r.write_address &&& 0x80 = 0x80 ∧
      r.read_address ||| 0x80 = r.write_address ∧
      r.read_address ≠ r.write_address := by
  intro r
  cases r <;> decide

/-- Claim C3: the configuration byte places vbias in bit 7, conversion
mode in bit 6, one-shot in bit 5, sensor type in bit 4, filter mode in
bit 0, with bits 1-3 always clear and every field owning only its own
bits; `configure(true,false,false,TwoOrFourWire,Filter60Hz)` gives 0x80,
`configure(true,true,false,ThreeWire,Filter50Hz)` gives 0xD1, and
`configure` transmits that byte to the CONFIG register as the second byte
of its SPI write. -/
theorem configure_bits_spec :
    ∀ (v c o : Bool) (st : SensorType) (fm : FilterMode),
      (configByte v c o st fm < 256 ∧
       (configByte v c o st fm).testBit 7 = v ∧
       (configByte v c o st fm).testBit 6 = c ∧
       (configByte v c o st fm).testBit 5 = o ∧
       (configByte v c o st fm).testBit 4 = decide (st = SensorType.ThreeWire) ∧
       (configByte v c o st fm).testBit 0 = decide (fm = FilterMode.Filter50Hz) ∧
       (configByte v c o st fm).testBit 1 = false ∧
       (configByte v c o st fm).testBit 2 = false ∧
       (configByte v c o st fm).testBit 3 = false) ∧
      configByte true false false SensorType.TwoOrFourWire FilterMode.Filter60Hz
        = 0x80 ∧
      configByte true true false SensorType.ThreeWire FilterMode.Filter50Hz
        = 0xD1 ∧
      ∀ {NCS RDY Ep S E : Type} (m : Max31865 NCS RDY)
        (ncsM : OutputPin NCS Ep) (spiM : SpiModel S E) (s : S),
        (Max31865.configure m ncsM spiM s v c o st fm).2.2.2.take 2 =
          [BusEvent.setLow,
           BusEvent.spiWrite
             [Register.CONFIG.write_address, configByte v c o st fm]] := by
  intro v c o st fm
  refine ⟨?_, by decide, by decide, ?_⟩
  · cases v <;> cases c <;> cases o <;> cases st <;> cases fm <;> decide
  · intro NCS RDY Ep S E m ncsM spiM s
    rcases hw : spiM.write s [Register.CONFIG.write_address, configByte v c o st fm]
      with ⟨r, s2⟩
    cases r with
    | ok u =>
        have h := (write_cases m ncsM spiM s Register.CONFIG
          (configByte v c o st fm)).1 u s2 hw
        simp only [Max31865.configure]
        rw [h]
        rfl
    | error e =>
        have h := (write_cases m ncsM spiM s Register.CONFIG
          (configByte v c o st fm)).2 e s2 hw
        simp only [Max31865.configure]
        rw [h]
        rfl

/-- Claim C2 counterexample: with calibration 40000 and raw sample 0x7FFE
(delivered as RTD bytes 0x7F, 0xFE), the pipeline computes ohms 19998 (the
raw ratio is about 0.5, not about 1.0), which is not within 1 of 40000;
the ohms value is observed through `read_default_conversion` with the
identity lookup. -/
theorem conversion_roundtrip_counterexample :
    (Max31865.read_raw m0 pinOk (spiRTD 0x7F 0xFE) ()).1 = Except.ok 0x7FFE ∧
    ((0x7FFE >>> 1) * 40000) >>> 15 = 19998 ∧
    (Max31865.read_default_conversion (fun x => x) m0 pinOk
        (spiRTD 0x7F 0xFE) ()).1 = Except.ok 19998 ∧
    ¬(40000 - 1 ≤ 19998 ∧ 19998 ≤ 40000 + 1) :=
  ⟨rfl, by decide, rfl, by decide⟩

/-- Claim C2 amended: the raw sample whose top 15 bits encode a ratio of
about 1.0 is 0xFFFE (fault bit clear), and for it the pipeline's ohms
value is 39998, i.e. within 2 of the reference resistance 40000 (the
exact value is 40000 * 32767 / 32768 truncated, so the error bound is 2,
not 1). -/
theorem conversion_roundtrip_amended :
    (Max31865.read_raw m0 pinOk (spiRTD 0xFF 0xFE) ()).1 = Except.ok 0xFFFE ∧
    0xFFFE % 2 = 0 ∧
    ((0xFFFE >>> 1) * 40000) >>> 15 = 39998 ∧
    (Max31865.read_default_conversion (fun x => x) m0 pinOk
        (spiRTD 0xFF 0xFE) ()).1 = Except.ok 39998 ∧
    40000 - 39998 ≤ 2 :=
  ⟨rfl, by decide, by decide, rfl, by decide⟩

/-- Claim C1: whenever `read_raw` returns a raw sample,
`read_default_conversion` returns the lookup-table temperature of
`ohms = (((raw >> 1) * calibration) % 2^32) >> 15` truncated to u16, for
the calibration stored at entry; and whenever `read_raw` fails,
`read_default_conversion` fails with exactly the same transport error. -/
theorem read_default_conversion_spec :
    ∀ {NCS RDY Ep S E : Type} (lookup_temperature : Nat → Nat)
      (m : Max31865 NCS RDY) (ncsM : OutputPin NCS Ep) (spiM : SpiModel S E)
      (s : S),
      (∀ (raw : Nat) (m' : Max31865 NCS RDY) (s' : S) (tr : List BusEvent),
         Max31865.read_raw m ncsM spiM s = (Except.ok raw, m', s', tr) →
         Max31865.read_default_conversion lookup_temperature m ncsM spiM s =
           (Except.ok (lookup_temperature (ohms_of_raw raw m.calibration % 2 ^ 16)),
            m', s', tr)) ∧
      (∀ (e : E) (m' : Max31865 NCS RDY) (s' : S) (tr : List BusEvent),
         Max31865.read_raw m ncsM spiM s = (Except.error e, m', s', tr) →
         Max31865.read_default_conversion lookup_temperature m ncsM spiM s =
           (Except.error e, m', s', tr)) := by
  intro NCS RDY Ep S E lookup_temperature m ncsM spiM s
  exact ⟨fun raw m' s' tr h => rdc_of_read_raw_ok lookup_temperature m ncsM spiM s
           raw m' s' tr h,
         fun e m' s' tr h => rdc_of_read_raw_error lookup_temperature m ncsM spiM s
           e m' s' tr h⟩

/-- Claim C1 witness: on a bus delivering RTD bytes 0x01, 0x02 (raw
0x0102) with the default calibration 40000, `read_default_conversion`
with the identity lookup returns the computed ohms value 157. -/
theorem read_default_conversion_spec_witness :
    Max31865.read_default_conversion (fun x => x) m0 pinOk (spiRTD 0x01 0x02) () =
      (Except.ok 157, m0, (),
       [BusEvent.setLow, BusEvent.spiTransfer [1, 0], BusEvent.setHigh,
        BusEvent.setLow, BusEvent.spiTransfer [2, 0], BusEvent.setHigh]) :=
  (read_default_conversion_spec (fun x => x) m0 pinOk (spiRTD 0x01 0x02) ()).1
    0x0102 m0 ()
    [BusEvent.setLow, BusEvent.spiTransfer [1, 0], BusEvent.setHigh,
     BusEvent.setLow, BusEvent.spiTransfer [2, 0], BusEvent.setHigh]
    rfl

/-- Claim C5: when the two single-register transfers for RTD_MSB and
RTD_LSB deliver bytes `msb` and `lsb`, `read_raw` returns exactly
`(msb <<< 8) ||| lsb`; and when either transfer fails, `read_raw`
propagates that transport error. -/
theorem read_raw_spec :
    ∀ {NCS RDY Ep S E : Type} (m : Max31865 NCS RDY)
      (ncsM : OutputPin NCS Ep) (spiM : SpiModel S E) (s : S),
      (∀ (b0 msb b1 lsb : Nat) (s1 s2 : S),
         msb < 256 → lsb < 256 →
         spiM.transfer s [Register.RTD_MSB.read_address, 0] =
           (Except.ok [b0, msb], s1) →
         spiM.transfer s1 [Register.RTD_LSB.read_address, 0] =
           (Except.ok [b1, lsb], s2) →
         (Max31865.read_raw m ncsM spiM s).1 = Except.ok ((msb <<< 8) ||| lsb)) ∧
      (∀ (e : E) (s1 : S),
         spiM.transfer s [Register.RTD_MSB.read_address, 0] =
           (Except.error e, s1) →
         (Max31865.read_raw m ncsM spiM s).1 = Except.error e) ∧
      (∀ (b0 msb : Nat) (s1 : S) (e : E) (s2 : S),
         spiM.transfer s [Register.RTD_MSB.read_address, 0] =
           (Except.ok [b0, msb], s1) →
         spiM.transfer s1 [Register.RTD_LSB.read_address, 0] =
           (Except.error e, s2) →
         (Max31865.read_raw m ncsM spiM s).1 = Except.error e) := by
  intro NCS RDY Ep S E m ncsM spiM s
  refine ⟨?_, ?_, ?_⟩
  · intro b0 msb b1 lsb s1 s2 hm hl h1 h2
    simp [Max31865.read_raw, Max31865.read, Max31865.read_many, h1, h2]
  · intro e s1 h1
    simp [Max31865.read_raw, Max31865.read, Max31865.read_many, h1]
  · intro b0 msb s1 e s2 h1 h2
    simp [Max31865.read_raw, Max31865.read, Max31865.read_many, h1, h2]

/-- Claim C5 witness: RTD bytes msb 0x01 and lsb 0x02 compose to raw
0x0102. -/
theorem read_raw_spec_witness :
    (Max31865.read_raw m0 pinOk (spiRTD 0x01 0x02) ()).1 = Except.ok 0x0102 :=
  (read_raw_spec m0 pinOk (spiRTD 0x01 0x02) ()).1 1 0x01 2 0x02 () ()
    (by decide) (by decide) rfl rfl

/-- Claim C6 counterexample: with a chip-select pin whose high drive
fails, `new` still returns `Ok` (the source discards the pin result with
`.ok()`), so construction does not fail with a pin-drive error. -/
theorem new_counterexample :
    (pinFailHigh.set_high ()).1 = Except.error () ∧
    Max31865.new (E := Unit) pinFailHigh () () =
      (Except.ok { ncs := (), rdy := (), calibration := 40000 },
       [BusEvent.setHigh]) :=
  ⟨rfl, rfl⟩

/-- Claim C6 amended: construction drives chip-select high before
returning and initializes the calibration to 40000 (400.00 ohms), but the
pin-drive result is discarded (`.ok()`), so `new` always returns `Ok`
and never propagates a pin error. -/
theorem new_spec_amended :
    ∀ {NCS RDY Ep E : Type} (ncsM : OutputPin NCS Ep) (ncs : NCS) (rdy : RDY),
      ∃ inst : Max31865 NCS RDY,
        Max31865.new (E := E) ncsM ncs rdy = (Except.ok inst, [BusEvent.setHigh]) ∧
        inst.ncs = (ncsM.set_high ncs).2 ∧ inst.rdy = rdy ∧
        inst.calibration = 40000 := by
  intro NCS RDY Ep E ncsM ncs rdy
  exact ⟨_, rfl, rfl, rfl, rfl⟩

/-- Claim C7: `is_ready` returns true when the ready pin reads low, false
when it reads high, and false (without surfacing the error) when the pin
read fails. -/
theorem is_ready_spec :
    ∀ {NCS RDY Ep : Type} (m : Max31865 NCS RDY) (rdyM : InputPin RDY Ep),
      (rdyM.is_low m.rdy = Except.ok true → Max31865.is_ready m rdyM = true) ∧
      (rdyM.is_low m.rdy = Except.ok false → Max31865.is_ready m rdyM = false) ∧
      (∀ e : Ep, rdyM.is_low m.rdy = Except.error e →
         Max31865.is_ready m rdyM = false) := by
  intro NCS RDY Ep m rdyM
  refine ⟨fun h => ?_, fun h => ?_, fun e h => ?_⟩ <;>
    simp [Max31865.is_ready, h]

/-- Claim C7 witness: with a ready pin whose read fails, `is_ready`
returns false. -/
theorem is_ready_spec_witness : Max31865.is_ready m0 rdyFail = false :=
  (is_ready_spec m0 rdyFail).2.2 () rfl

/-- Claim C8 counterexample: with an SPI bus whose write primitive fails,
`write` propagates the transport error but never drives chip-select high:
the trace ends after the transfer, so chip-select is not deasserted
immediately after the operation. -/
theorem write_framing_counterexample :
    (Max31865.write m0 pinOk spiFail () Register.CONFIG 0xD1).1 =
      Except.error () ∧
    (Max31865.write m0 pinOk spiFail () Register.CONFIG 0xD1).2.2.2 =
      [BusEvent.setLow, BusEvent.spiWrite [0x80, 0xD1]] ∧
    BusEvent.setHigh ∉ (Max31865.write m0 pinOk spiFail () Register.CONFIG 0xD1).2.2.2 :=
  ⟨rfl, rfl, by decide⟩

/-- Claim C8 amended: `write` asserts chip-select, transmits exactly
`[write_address reg, val]` as a single bus write while chip-select is
asserted, and — when the transfer succeeds — deasserts chip-select
immediately after it, so on success chip-select frames exactly one
transfer; on transfer failure the transport error is propagated
unmodified and chip-select is left asserted (no deassert is attempted). -/
theorem write_framing_amended :
    ∀ {NCS RDY Ep S E : Type} (m : Max31865 NCS RDY) (ncsM : OutputPin NCS Ep)
      (spiM : SpiModel S E) (s : S) (reg : Register) (val : Nat),
      (∀ (u : Unit) (s' : S),
         spiM.write s [reg.write_address, val] = (Except.ok u, s') →
         (Max31865.write m ncsM spiM s reg val).1 = Except.ok () ∧
         (Max31865.write m ncsM spiM s reg val).2.2.2 =
           [BusEvent.setLow, BusEvent.spiWrite [reg.write_address, val],
            BusEvent.setHigh]) ∧
      (∀ (e : E) (s' : S),
         spiM.write s [reg.write_address, val] = (Except.error e, s') →
         (Max31865.write m ncsM spiM s reg val).1 = Except.error e ∧
         (Max31865.write m ncsM spiM s reg val).2.2.2 =
           [BusEvent.setLow, BusEvent.spiWrite [reg.write_address, val]] ∧
         BusEvent.setHigh ∉ (Max31865.write m ncsM spiM s reg val).2.2.2) := by
  intro NCS RDY Ep S E m ncsM spiM s reg val
  constructor
  · intro u s' h
    rw [(write_cases m ncsM spiM s reg val).1 u s' h]
    exact ⟨rfl, rfl⟩
  · intro e s' h
    rw [(write_cases m ncsM spiM s reg val).2 e s' h]
    refine ⟨rfl, rfl, ?_⟩
    simp

/-- Claim C8 witness: a successful write of 0xD1 to CONFIG produces the
assert, transfer, deassert trace. -/
theorem write_framing_amended_witness :
    (Max31865.write m0 pinOk (spiRTD 0 0) () Register.CONFIG 0xD1).1 =
      Except.ok () ∧
    (Max31865.write m0 pinOk (spiRTD 0 0) () Register.CONFIG 0xD1).2.2.2 =
      [BusEvent.setLow, BusEvent.spiWrite [Register.CONFIG.write_address, 0xD1],
       BusEvent.setHigh] :=
  (write_framing_amended m0 pinOk (spiRTD 0 0) () Register.CONFIG 0xD1).1 () () rfl

/-- Claim C9: `set_calibration` returns `ok` and overwrites the stored
calibration with exactly the argument, and the next successful
`read_default_conversion` computes its ohms value from the new
calibration. -/
theorem set_calibration_spec :
    ∀ {NCS RDY E : Type} (m : Max31865 NCS RDY) (calib : Nat),
      ((Max31865.set_calibration (E := E) m calib).1 = Except.ok () ∧
       (Max31865.set_calibration (E := E) m calib).2.calibration = calib) ∧
      (∀ {Ep S E2 : Type} (lookup_temperature : Nat → Nat)
         (ncsM : OutputPin NCS Ep) (spiM : SpiModel S E2) (s : S)
         (raw : Nat) (m' : Max31865 NCS RDY) (s' : S) (tr : List BusEvent),
         Max31865.read_raw (Max31865.set_calibration (E := E) m calib).2
             ncsM spiM s = (Except.ok raw, m', s', tr) →
         Max31865.read_default_conversion lookup_temperature
             (Max31865.set_calibration (E := E) m calib).2 ncsM spiM s =
           (Except.ok (lookup_temperature (ohms_of_raw raw calib % 2 ^ 16)),
            m', s', tr)) := by
  intro NCS RDY E m calib
  refine ⟨⟨rfl, rfl⟩, ?_⟩
  intro Ep S E2 lookup_temperature ncsM spiM s raw m' s' tr h
  exact rdc_of_read_raw_ok lookup_temperature
    (Max31865.set_calibration (E := E) m calib).2 ncsM spiM s raw m' s' tr h

/-- Claim C9 witness: after `set_calibration 20000`, a conversion with
RTD bytes 0x2C, 0x00 (raw 0x2C00) uses 20000 and produces ohms 3437
through the identity lookup. -/
theorem set_calibration_spec_witness :
    Max31865.read_default_conversion (fun x => x)
        (Max31865.set_calibration (E := Unit) m0 20000).2 pinOk
        (spiRTD 0x2C 0x00) () =
      (Except.ok 3437, { ncs := (), rdy := (), calibration := 20000 }, (),
       [BusEvent.setLow, BusEvent.spiTransfer [1, 0], BusEvent.setHigh,
        BusEvent.setLow, BusEvent.spiTransfer [2, 0], BusEvent.setHigh]) :=
  (set_calibration_spec (E := Unit) m0 20000).2 (fun x => x) pinOk
    (spiRTD 0x2C 0x00) () 0x2C00
    { ncs := (), rdy := (), calibration := 20000 } ()
    [BusEvent.setLow, BusEvent.spiTransfer [1, 0], BusEvent.setHigh,
     BusEvent.setLow, BusEvent.spiTransfer [2, 0], BusEvent.setHigh]
    rfl

/-- Claim C10: the u32 multiplication `(raw >> 1) * calibration` in the
conversion pipeline is overflow-free for every 16-bit raw sample whenever
the calibration is at most 131072 — there `ohms_of_raw` coincides with
the unwrapped arithmetic — but for raw sample 0xFFFE and a calibration
above that bound (e.g. 2^20, well inside u32) the product exceeds the u32
range and `ohms_of_raw` wraps, differing from the unwrapped value; the
driver never checks this precondition. -/
theorem ohms_overflow_bound :
    (∀ raw cal : Nat, raw < 2 ^ 16 → cal ≤ 131072 →
       (raw >>> 1) * cal < 2 ^ 32 ∧
       ohms_of_raw raw cal = ((raw >>> 1) * cal) >>> 15) ∧
    (131072 < 2 ^ 20 ∧ 2 ^ 20 < 2 ^ 32 ∧
     2 ^ 32 ≤ (0xFFFE >>> 1) * 2 ^ 20 ∧
     ohms_of_raw 0xFFFE (2 ^ 20) ≠ ((0xFFFE >>> 1) * 2 ^ 20) >>> 15) := by
  constructor
  · intro raw cal hraw hcal
    have h0 : (2 : Nat) ^ 16 = 65536 := by norm_num
    rw [h0] at hraw
    have h1 : raw >>> 1 ≤ 32767 := by
      rw [Nat.shiftRight_eq_div_pow, pow_one]
      omega
    have h2 : (raw >>> 1) * cal ≤ 32767 * 131072 := Nat.mul_le_mul h1 hcal
    have h3 : (raw >>> 1) * cal < 2 ^ 32 := lt_of_le_of_lt h2 (by norm_num)
    refine ⟨h3, ?_⟩
    unfold ohms_of_raw
    rw [Nat.mod_eq_of_lt h3]
  · exact ⟨by norm_num, by norm_num, by decide, by decide⟩

/-- Claim C10 witness: at raw 0xFFFE and the bound calibration 131072 the
product stays below 2^32 and `ohms_of_raw` equals the unwrapped shift. -/
theorem ohms_overflow_bound_witness :
    (0xFFFE >>> 1) * 131072 < 2 ^ 32 ∧
    ohms_of_raw 0xFFFE 131072 = ((0xFFFE >>> 1) * 131072) >>> 15 :=
  ohms_overflow_bound.1 0xFFFE 131072 (by norm_num) (by norm_num)

end Max31865Driver
